import Mathlib

/-!
Shallow embedding of the calculation engines of the veterinary/livestock
backend (`backend/server.py`): the GVA (gross value added) engine, the
diagnostic interpretation engine, the sequential case-number service and
the ration (feed) calculation engine, together with theorems settling the
frozen claims about them.

Modelling conventions:
* Python `float` values are modelled as exact rationals (`ℚ`); all the
  arithmetic exercised by the claims is exactly representable.
* Python `int(x)` (truncation toward zero) is `pyInt`.
* Python `round(x, n)` (round half to even) is `pyRound n`.
* A Python dict field that may be missing is an `Option`; `d.get(k, v)`
  is `Option.getD`, `d[k]` on a possibly missing key is an `Option`
  bind, whose failure (`none`) models the `KeyError`.
* Engine failure paths (`HTTPException`) are modelled with `Except`.
* Database lookups are passed in as explicit arguments (the looked-up
  record, or the list of matching records), since the engines are pure
  functions of the fetched data.
-/

/-- Python `int(q)`: truncation toward zero. -/
def pyInt (q : ℚ) : ℤ := if 0 ≤ q then q.floor else -((-q).floor)

/-- Round a rational to the nearest integer, ties to even
(the rounding mode of Python `round`). -/
def roundHalfEven (r : ℚ) : ℤ :=
  let f := r.floor
  let frac := r - f
  if frac < 1 / 2 then f
  else if 1 / 2 < frac then f + 1
  else if f % 2 = 0 then f else f + 1

/-- Python `round(q, nd)` for `nd ≥ 0`, on exact rationals. -/
def pyRound (nd : ℕ) (q : ℚ) : ℚ := (roundHalfEven (q * (10 ^ nd)) : ℚ) / (10 ^ nd)

/-- Python `s.lower()` (the sources only use ASCII strings). -/
def pyLower (s : String) : String := ⟨s.toList.map Char.toLower⟩

/-- Python substring containment `needle in hay`, on character lists. -/
def containsSub : List Char → List Char → Bool
  | [], n => n.isEmpty
  | h :: hs, n => n.isPrefixOf (h :: hs) || containsSub hs n

/- ======================= GVA CALCULATION ENGINE =======================
Source: `backend/server.py`, `DEFAULT_GVA_SETTINGS` (lines 3208-3232),
`GVAInputBase` (3234-3255), `GVACalculationResult` (3257-3293) and
`calculate_gva` (3343-3402). -/

/-- The `milk` group of a GVA settings document.  Each key of the Python
dict may be absent, hence `Option`. -/
structure MilkSettings where
  breedable_percentage : Option ℚ
  in_milk_percentage : Option ℚ
  input_cost_percentage : Option ℚ
deriving DecidableEq

/-- The `sheep_goat` group of a GVA settings document. -/
structure SheepGoatSettings where
  slaughter_rate : Option ℚ
  seasons_per_year : Option ℚ
  input_cost_percentage : Option ℚ
deriving DecidableEq

/-- The `buffalo_meat` group of a GVA settings document. -/
structure BuffaloMeatSettings where
  slaughter_rate : Option ℚ
  input_cost_percentage : Option ℚ
deriving DecidableEq

/-- The `poultry_meat` group of a GVA settings document. -/
structure PoultryMeatSettings where
  batches_per_year : Option ℚ
  slaughter_rate : Option ℚ
  dressing_percentage : Option ℚ
  input_cost_percentage : Option ℚ
deriving DecidableEq

/-- The `egg` group of a GVA settings document. -/
structure EggSettings where
  input_cost_percentage : Option ℚ
deriving DecidableEq

/-- A GVA settings map: each of the five category groups may be absent
(`settings.get(name, DEFAULT_GVA_SETTINGS[name])` in the source). -/
structure GVASettings where
  milk : Option MilkSettings
  sheep_goat : Option SheepGoatSettings
  buffalo_meat : Option BuffaloMeatSettings
  poultry_meat : Option PoultryMeatSettings
  egg : Option EggSettings
deriving DecidableEq

/-- `DEFAULT_GVA_SETTINGS["milk"]`. -/
def DEFAULT_MILK_SETTINGS : MilkSettings :=
  { breedable_percentage := some 70
    in_milk_percentage := some 60
    input_cost_percentage := some 40 }

/-- `DEFAULT_GVA_SETTINGS["sheep_goat"]`. -/
def DEFAULT_SHEEP_GOAT_SETTINGS : SheepGoatSettings :=
  { slaughter_rate := some 45
    seasons_per_year := some 3
    input_cost_percentage := some 20 }

/-- `DEFAULT_GVA_SETTINGS["buffalo_meat"]`. -/
def DEFAULT_BUFFALO_MEAT_SETTINGS : BuffaloMeatSettings :=
  { slaughter_rate := some 25
    input_cost_percentage := some 15 }

/-- `DEFAULT_GVA_SETTINGS["poultry_meat"]`. -/
def DEFAULT_POULTRY_MEAT_SETTINGS : PoultryMeatSettings :=
  { batches_per_year := some 8
    slaughter_rate := some 95
    dressing_percentage := some 70
    input_cost_percentage := some 45 }

/-- `DEFAULT_GVA_SETTINGS["egg"]`. -/
def DEFAULT_EGG_SETTINGS : EggSettings :=
  { input_cost_percentage := some 40 }

/-- The full compiled-in `DEFAULT_GVA_SETTINGS` map. -/
def DEFAULT_GVA_SETTINGS : GVASettings :=
  { milk := some DEFAULT_MILK_SETTINGS
    sheep_goat := some DEFAULT_SHEEP_GOAT_SETTINGS
    buffalo_meat := some DEFAULT_BUFFALO_MEAT_SETTINGS
    poultry_meat := some DEFAULT_POULTRY_MEAT_SETTINGS
    egg := some DEFAULT_EGG_SETTINGS }

/-- `GVAInputBase`: livestock counts are Python `int`, prices and yields
Python `float`.  Location fields are irrelevant to the computation and
omitted. -/
structure GVAInputBase where
  cattle_count : ℤ := 0
  buffalo_count : ℤ := 0
  sheep_count : ℤ := 0
  goat_count : ℤ := 0
  poultry_count : ℤ := 0
  avg_milk_yield_per_day : ℚ := 0
  milk_price_per_litre : ℚ := 0
  avg_live_weight_kg : ℚ := 0
  meat_price_per_kg : ℚ := 0
  eggs_per_bird_per_year : ℤ := 0
  egg_price : ℚ := 0
  poultry_meat_price_per_kg : ℚ := 0
deriving DecidableEq

/-- `GVACalculationResult`.  Fields produced through Python `int(...)`
are `ℤ`; the rest are `ℚ`. -/
structure GVACalculationResult where
  milk_breedable_animals : ℤ
  milk_in_milk_animals : ℤ
  milk_daily_production : ℚ
  milk_annual_production : ℚ
  milk_gsdp : ℚ
  milk_input_cost : ℚ
  milk_gva : ℚ
  sheep_goat_slaughter_count : ℤ
  sheep_goat_meat_production : ℚ
  sheep_goat_annual_meat : ℚ
  sheep_goat_gsdp : ℚ
  sheep_goat_input_cost : ℚ
  sheep_goat_gva : ℚ
  buffalo_slaughter_count : ℤ
  buffalo_meat_production : ℚ
  buffalo_gsdp : ℚ
  buffalo_input_cost : ℚ
  buffalo_meat_gva : ℚ
  poultry_annual_birds : ℚ
  poultry_slaughter_count : ℤ
  poultry_dressed_meat : ℚ
  poultry_gsdp : ℚ
  poultry_input_cost : ℚ
  poultry_meat_gva : ℚ
  egg_annual_production : ℤ
  egg_gsdp : ℚ
  egg_input_cost : ℚ
  egg_gva : ℚ
  total_village_gva : ℚ
deriving DecidableEq

/-- The settings values `calculate_gva` actually reads, after group
fallback (`settings.get(name, DEFAULT_GVA_SETTINGS[name])`) and direct
key indexing (`group["key"]`, a `KeyError` when the key is missing,
modelled by `none`).  Keys are read in source order. -/
structure ResolvedGVAParams where
  milk_breedable_percentage : ℚ
  milk_in_milk_percentage : ℚ
  milk_input_cost_percentage : ℚ
  sheep_goat_slaughter_rate : ℚ
  sheep_goat_seasons_per_year : ℚ
  sheep_goat_input_cost_percentage : ℚ
  buffalo_slaughter_rate : ℚ
  buffalo_input_cost_percentage : ℚ
  poultry_batches_per_year : ℚ
  poultry_slaughter_rate : ℚ
  poultry_dressing_percentage : ℚ
  poultry_input_cost_percentage : ℚ
  egg_input_cost_percentage : ℚ
deriving DecidableEq

/-- Resolve every settings key `calculate_gva` reads.  `none` models the
`KeyError` the source raises when a present group lacks a key. -/
def resolveGVASettings (settings : GVASettings) : Option ResolvedGVAParams := do
  let milk_settings := settings.milk.getD DEFAULT_MILK_SETTINGS
  let sheep_goat_settings := settings.sheep_goat.getD DEFAULT_SHEEP_GOAT_SETTINGS
  let buffalo_settings := settings.buffalo_meat.getD DEFAULT_BUFFALO_MEAT_SETTINGS
  let poultry_settings := settings.poultry_meat.getD DEFAULT_POULTRY_MEAT_SETTINGS
  let egg_settings := settings.egg.getD DEFAULT_EGG_SETTINGS
  let mb ← milk_settings.breedable_percentage
  let mi ← milk_settings.in_milk_percentage
  let mc ← milk_settings.input_cost_percentage
  let sgs ← sheep_goat_settings.slaughter_rate
  let sgy ← sheep_goat_settings.seasons_per_year
  let sgc ← sheep_goat_settings.input_cost_percentage
  let bs ← buffalo_settings.slaughter_rate
  let bc ← buffalo_settings.input_cost_percentage
  let pb ← poultry_settings.batches_per_year
  let ps ← poultry_settings.slaughter_rate
  let pd ← poultry_settings.dressing_percentage
  let pc ← poultry_settings.input_cost_percentage
  let ec ← egg_settings.input_cost_percentage
  pure
    { milk_breedable_percentage := mb
      milk_in_milk_percentage := mi
      milk_input_cost_percentage := mc
      sheep_goat_slaughter_rate := sgs
      sheep_goat_seasons_per_year := sgy
      sheep_goat_input_cost_percentage := sgc
      buffalo_slaughter_rate := bs
      buffalo_input_cost_percentage := bc
      poultry_batches_per_year := pb
      poultry_slaughter_rate := ps
      poultry_dressing_percentage := pd
      poultry_input_cost_percentage := pc
      egg_input_cost_percentage := ec }

/-- The formula block of `calculate_gva` (source lines 3353-3400),
field by field in source order. -/
def computeGVA (inputs : GVAInputBase) (p : ResolvedGVAParams) : GVACalculationResult :=
  let total_dairy : ℤ := inputs.cattle_count + inputs.buffalo_count
  let milk_breedable_animals := pyInt ((total_dairy : ℚ) * p.milk_breedable_percentage / 100)
  let milk_in_milk_animals := pyInt ((milk_breedable_animals : ℚ) * p.milk_in_milk_percentage / 100)
  let milk_daily_production := (milk_in_milk_animals : ℚ) * inputs.avg_milk_yield_per_day
  let milk_annual_production := milk_daily_production * 365
  let milk_gsdp := milk_annual_production * inputs.milk_price_per_litre
  let milk_input_cost := milk_gsdp * p.milk_input_cost_percentage / 100
  let milk_gva := milk_gsdp - milk_input_cost
  let total_sheep_goat : ℤ := inputs.sheep_count + inputs.goat_count
  let sheep_goat_slaughter_count := pyInt ((total_sheep_goat : ℚ) * p.sheep_goat_slaughter_rate / 100)
  let sheep_goat_meat_production := (sheep_goat_slaughter_count : ℚ) * inputs.avg_live_weight_kg
  let sheep_goat_annual_meat := sheep_goat_meat_production * p.sheep_goat_seasons_per_year
  let sheep_goat_gsdp := sheep_goat_annual_meat * inputs.meat_price_per_kg
  let sheep_goat_input_cost := sheep_goat_gsdp * p.sheep_goat_input_cost_percentage / 100
  let sheep_goat_gva := sheep_goat_gsdp - sheep_goat_input_cost
  let buffalo_slaughter_count := pyInt ((inputs.buffalo_count : ℚ) * p.buffalo_slaughter_rate / 100)
  let buffalo_meat_production := (buffalo_slaughter_count : ℚ) * inputs.avg_live_weight_kg
  let buffalo_gsdp := buffalo_meat_production * inputs.meat_price_per_kg
  let buffalo_input_cost := buffalo_gsdp * p.buffalo_input_cost_percentage / 100
  let buffalo_meat_gva := buffalo_gsdp - buffalo_input_cost
  let poultry_annual_birds := (inputs.poultry_count : ℚ) * p.poultry_batches_per_year
  let poultry_slaughter_count := pyInt (poultry_annual_birds * p.poultry_slaughter_rate / 100)
  let poultry_dressed_meat := (poultry_slaughter_count : ℚ) * p.poultry_dressing_percentage / 100
  let poultry_gsdp := poultry_dressed_meat * inputs.poultry_meat_price_per_kg
  let poultry_input_cost := poultry_gsdp * p.poultry_input_cost_percentage / 100
  let poultry_meat_gva := poultry_gsdp - poultry_input_cost
  let egg_annual_production : ℤ := inputs.poultry_count * inputs.eggs_per_bird_per_year
  let egg_gsdp := (egg_annual_production : ℚ) * inputs.egg_price
  let egg_input_cost := egg_gsdp * p.egg_input_cost_percentage / 100
  let egg_gva := egg_gsdp - egg_input_cost
  { milk_breedable_animals := milk_breedable_animals
    milk_in_milk_animals := milk_in_milk_animals
    milk_daily_production := milk_daily_production
    milk_annual_production := milk_annual_production
    milk_gsdp := milk_gsdp
    milk_input_cost := milk_input_cost
    milk_gva := milk_gva
    sheep_goat_slaughter_count := sheep_goat_slaughter_count
    sheep_goat_meat_production := sheep_goat_meat_production
    sheep_goat_annual_meat := sheep_goat_annual_meat
    sheep_goat_gsdp := sheep_goat_gsdp
    sheep_goat_input_cost := sheep_goat_input_cost
    sheep_goat_gva := sheep_goat_gva
    buffalo_slaughter_count := buffalo_slaughter_count
    buffalo_meat_production := buffalo_meat_production
    buffalo_gsdp := buffalo_gsdp
    buffalo_input_cost := buffalo_input_cost
    buffalo_meat_gva := buffalo_meat_gva
    poultry_annual_birds := poultry_annual_birds
    poultry_slaughter_count := poultry_slaughter_count
    poultry_dressed_meat := poultry_dressed_meat
    poultry_gsdp := poultry_gsdp
    poultry_input_cost := poultry_input_cost
    poultry_meat_gva := poultry_meat_gva
    egg_annual_production := egg_annual_production
    egg_gsdp := egg_gsdp
    egg_input_cost := egg_input_cost
    egg_gva := egg_gva
    total_village_gva :=
      milk_gva + sheep_goat_gva + buffalo_meat_gva + poultry_meat_gva + egg_gva }

/-- `calculate_gva(inputs, settings)`: resolve the settings keys (a
`KeyError` yields `none`), then evaluate the five formula chains. -/
def calculate_gva (inputs : GVAInputBase) (settings : GVASettings) :
    Option GVACalculationResult :=
  (resolveGVASettings settings).map (computeGVA inputs)


/- ================= DIAGNOSTIC INTERPRETATION ENGINE =================
Source: `backend/server.py`, `HIGH_RISK_DISEASES` (lines 94-97),
`ReferenceData` (243-251), `SafetyAlert` (266-274),
`get_safety_alert` (315-352) and `interpret_diagnostic` (580-639). -/

/-- The fixed zoonotic disease list `HIGH_RISK_DISEASES`. -/
def HIGH_RISK_DISEASES : List String :=
  ["Brucellosis", "Anthrax", "Leptospirosis", "Tuberculosis",
   "Avian Influenza", "Rabies", "FMD"]

/-- The `SafetyAlert` record. -/
structure SafetyAlert where
  disease : String
  ppe_requirements : List String
  handling_precautions : List String
  sample_collection_safety : List String
  waste_disposal : List String
  public_health_advice : String
  reporting_requirements : String
  legal_disclaimer : String
deriving DecidableEq

/-- The fixed alert template `get_safety_alert` builds, parameterized
only by the disease name. -/
def safetyAlertTemplate (disease : String) : SafetyAlert :=
  { disease := disease
    ppe_requirements :=
      ["Wear disposable gloves", "Use N95 mask or respirator",
       "Wear protective eyewear", "Use disposable gown/coverall",
       "Rubber boots with disinfection"]
    handling_precautions :=
      ["Minimize direct animal contact", "Avoid contact with body fluids",
       "Work in well-ventilated areas", "Wash hands thoroughly after handling",
       "Do not eat/drink in work areas"]
    sample_collection_safety :=
      ["Use sterile equipment", "Label samples clearly as biohazard",
       "Double-bag specimens", "Transport in leak-proof containers",
       "Follow cold chain if required"]
    waste_disposal :=
      ["Autoclave or incinerate infected materials",
       "Disinfect all equipment after use",
       "Dispose of PPE in biohazard containers",
       "Clean area with approved disinfectant"]
    public_health_advice :=
      disease ++ " is a zoonotic disease that can transmit to humans. Immediate reporting to authorities is mandatory."
    reporting_requirements :=
      "Report to District Veterinary Officer within 24 hours. Notify State Animal Husbandry Department. Complete Form A for disease notification."
    legal_disclaimer :=
      "This safety information is for reference only. Always follow local regulations and consult with public health authorities." }

/-- `get_safety_alert(disease)`: `None` unless the disease is in the
fixed high-risk list. -/
def get_safety_alert (disease : String) : Option SafetyAlert :=
  if HIGH_RISK_DISEASES.contains disease then some (safetyAlertTemplate disease)
  else none

/-- The `reference_data` sub-document of a knowledge-center entry.
`Option` fields model keys that may be absent (`dict.get`). -/
structure ReferenceData where
  normal_min : Option ℚ
  normal_max : Option ℚ
  unit : Option String
  increase_causes : List String
  decrease_causes : List String
  special_symptoms : List String
  suggested_actions : List String
deriving DecidableEq

/-- A knowledge-center entry, as matched by the reference lookup of
`interpret_diagnostic` (exact equality on the three key fields). -/
structure KnowledgeCenterEntry where
  test_category : String
  test_type : String
  species : String
  reference_data : ReferenceData
deriving DecidableEq

/-- The interpretation dict built by `interpret_diagnostic`.  The
human-readable `normal_range` string is kept as its (min, max, unit)
components rather than a formatted decimal string. -/
structure Interpretation where
  status : String
  normal_range : Option (ℚ × ℚ × String)
  possible_conditions : List String
  special_symptoms : List String
  suggested_actions : List String
  safety_alert : Option SafetyAlert
deriving DecidableEq

/-- `value > ref_data.get("normal_max", float('inf'))`: with the key
absent the ceiling is `+inf`, so the comparison is never true. -/
def exceedsMax (v : ℚ) (mx : Option ℚ) : Bool :=
  match mx with
  | some m => decide (v > m)
  | none => false

/-- First high-risk disease whose (lowercased) name occurs as a
substring of the (lowercased) condition: the inner `for disease in
HIGH_RISK_DISEASES` loop with its `break`. -/
def conditionDisease (condition : String) : Option String :=
  HIGH_RISK_DISEASES.find?
    (fun disease => containsSub (pyLower condition).toList (pyLower disease).toList)

/-- The zoonotic scan loop of `interpret_diagnostic` (lines 632-637).
The `break` leaves only the inner disease loop, so a later condition
with a match overwrites the alert of an earlier one. -/
def scanSafetyAlert (conds : List String) : Option SafetyAlert :=
  conds.foldl
    (fun acc condition =>
      match conditionDisease condition with
      | some disease =>
        match get_safety_alert disease with
        | some a => some a
        | none => none
      | none => acc)
    none

/-- The message of the no-reference-data safe default. -/
def NO_REFERENCE_MESSAGE : String :=
  "No reference data available. Please consult knowledge center."

/-- The body of `interpret_diagnostic` after the database lookup:
takes the looked-up reference (or `none`), the numeric value and the
text value. -/
def interpretRef (ref : Option ReferenceData) (value : Option ℚ)
    (value_text : Option String) : Interpretation :=
  match ref with
  | none =>
    { status := "normal"
      normal_range := none
      possible_conditions := []
      special_symptoms := []
      suggested_actions := [NO_REFERENCE_MESSAGE]
      safety_alert := none }
  | some ref_data =>
    let normal_range :=
      match ref_data.normal_min, ref_data.normal_max with
      | some mn, some mx => some (mn, mx, ref_data.unit.getD "")
      | _, _ => none
    let numeric : String × List String :=
      match value, ref_data.normal_min with
      | some v, some mn =>
        if exceedsMax v ref_data.normal_max then ("high", ref_data.increase_causes)
        else if v < mn then ("low", ref_data.decrease_causes)
        else ("normal", [])
      | _, _ => ("normal", [])
    let texted : String × List String :=
      match value_text with
      | some t =>
        if t.isEmpty then numeric
        else if pyLower t = "positive" then ("positive", ref_data.increase_causes)
        else if pyLower t = "negative" then ("negative", numeric.2)
        else numeric
      | none => numeric
    { status := texted.1
      normal_range := normal_range
      possible_conditions := texted.2
      special_symptoms := ref_data.special_symptoms
      suggested_actions := ref_data.suggested_actions
      safety_alert := scanSafetyAlert texted.2 }

/-- The reference lookup of `interpret_diagnostic`: exact match on
(test_category, test_type, species) over the knowledge-center
collection. -/
def lookupReference (table : List KnowledgeCenterEntry)
    (test_category test_type species : String) : Option ReferenceData :=
  (table.find? (fun e =>
    e.test_category == test_category && e.test_type == test_type &&
    e.species == species)).map (fun e => e.reference_data)

/-- `interpret_diagnostic(test_category, test_type, species, value,
value_text)` over an explicit knowledge-center collection. -/
def interpret_diagnostic (table : List KnowledgeCenterEntry)
    (test_category test_type species : String) (value : Option ℚ)
    (value_text : Option String) : Interpretation :=
  interpretRef (lookupReference table test_category test_type species) value value_text

/- ================= SEQUENTIAL CASE-NUMBER SERVICE =================
Source: `backend/server.py`, `generate_opd_case_number` (lines
1730-1737) and `generate_surgical_case_number` (1856-1862).  Case
numbers are modelled as character lists; the current year (an external
clock input) is an explicit parameter. -/

/-- Python `str(n).zfill(5)`. -/
def zfill5 (n : ℕ) : List Char :=
  let ds := Nat.toDigits 10 n
  List.replicate (5 - ds.length) '0' ++ ds

/-- The pattern `f"{prefix}-{year}-"` used both as the regex
`^{prefix}-{year}-` of the count query and as the head of a generated
case number. -/
def caseNumberPat (pfx : List Char) (year : ℕ) : List Char :=
  pfx ++ ['-'] ++ Nat.toDigits 10 year ++ ['-']

/-- One generated case number `f"{prefix}-{year}-{str(seq).zfill(5)}"`. -/
def mkCaseNumber (pfx : List Char) (year : ℕ) (seq : ℕ) : List Char :=
  caseNumberPat pfx year ++ zfill5 seq

/-- `generate_opd_case_number` / `generate_surgical_case_number`:
count the stored case numbers matching `^{prefix}-{year}-` and return
the formatted count+1.  `docs` is the list of stored case numbers. -/
def generate_case_number (pfx : List Char) (year : ℕ)
    (docs : List (List Char)) : List Char :=
  let count := docs.countP (fun s => (caseNumberPat pfx year).isPrefixOf s)
  mkCaseNumber pfx year (count + 1)

/-- `n` sequential (non-concurrent) case creations: each generates a
number from the current collection and inserts it.  Returns the
generated numbers in creation order. -/
def createCaseNumbers (pfx : List Char) (year : ℕ) :
    List (List Char) → ℕ → List (List Char)
  | _, 0 => []
  | docs, n + 1 =>
    let c := generate_case_number pfx year docs
    c :: createCaseNumbers pfx year (docs ++ [c]) n

/- ==================== RATION CALCULATION ENGINE ====================
Source: `backend/server.py`, `FeedItemBase` (lines 3683-3703),
`SpeciesNutritionRuleBase` (3716-3729), `RationCalculationRequest`
(3787-3793) and `calculate_ration_internal` (4003-4199).  The nutrition
rule and the resolved feed documents are passed in explicitly; fields
the engine never reads are omitted. -/

/-- A feed item, restricted to the fields `calculate_ration_internal`
reads.  `Option` models optional/absent fields. -/
structure FeedItem where
  id : String
  name : String
  category : String
  dm_percentage : ℚ
  cp_percentage : ℚ
  tdn_percentage : Option ℚ
  default_price_per_kg : Option ℚ
  max_inclusion_percentage : Option ℚ
  warnings : List String
deriving DecidableEq

/-- A species nutrition rule, restricted to the fields the engine
reads. -/
structure SpeciesNutritionRule where
  dm_percentage_bw : ℚ
  cp_requirement_percentage : ℚ
  tdn_requirement_percentage : Option ℚ
  roughage_min_percentage : Option ℚ
  concentrate_max_percentage : Option ℚ
  milk_allowance_dm_per_litre : Option ℚ
deriving DecidableEq

/-- The hardcoded fallback rule used when no nutrition rule matches
(source lines 4017-4026); 0.4 is written 4/10. -/
def defaultNutritionRule : SpeciesNutritionRule :=
  { dm_percentage_bw := 3
    cp_requirement_percentage := 12
    tdn_requirement_percentage := some 60
    roughage_min_percentage := some 60
    concentrate_max_percentage := some 40
    milk_allowance_dm_per_litre := some (4 / 10) }

/-- `RationCalculationRequest`, restricted to the fields the engine
reads.  `feed_prices` is the optional custom price dict. -/
structure RationCalculationRequest where
  species : String
  body_weight_kg : ℚ
  physiological_status : String
  milk_yield_liters : Option ℚ
  feed_prices : Option (List (String × ℚ))
deriving DecidableEq

/-- One entry of the `suggested_ration` list. -/
structure RationEntry where
  feed_id : String
  feed_name : String
  category : String
  quantity_kg : ℚ
  dm_kg : ℚ
  cp_g : ℚ
  tdn_kg : ℚ
  cost : ℚ
deriving DecidableEq

/-- The ration calculation result, restricted to the computed fields
(identifier, timestamps and audit fields are external effects). -/
structure RationResult where
  species : String
  body_weight_kg : ℚ
  physiological_status : String
  milk_yield_liters : ℚ
  dm_required_kg : ℚ
  cp_required_g : ℚ
  tdn_required_kg : ℚ
  suggested_ration : List RationEntry
  total_dm_provided_kg : ℚ
  total_cp_provided_g : ℚ
  total_tdn_provided_kg : ℚ
  protein_status : String
  energy_status : String
  daily_feed_cost : ℚ
  cost_per_litre_milk : Option ℚ
  warnings : List String
  advice : List String
deriving DecidableEq

/-- Membership in the roughage category list (source line 4056). -/
def isRoughageCat (s : String) : Bool :=
  s == "green_fodder_legume" || s == "green_fodder_non_legume" ||
  s == "dry_fodder" || s == "tree_fodder"

/-- Membership in the concentrate category list (source line 4057). -/
def isConcentrateCat (s : String) : Bool :=
  s == "concentrates" || s == "oil_cakes" || s == "brans" || s == "grains"

/-- Membership in the mineral category list (source line 4058). -/
def isMineralCat (s : String) : Bool :=
  s == "minerals" || s == "supplements"

/-- Price resolution (source lines 4069/4107/4133):
`request.feed_prices.get(feed["id"], feed.get("default_price_per_kg", 0))
if request.feed_prices else feed.get("default_price_per_kg", 0)`; an
empty dict is falsy. -/
def feedPrice (req : RationCalculationRequest) (f : FeedItem) : ℚ :=
  match req.feed_prices with
  | some ps =>
    if ps.isEmpty then f.default_price_per_kg.getD 0
    else (ps.lookup f.id).getD (f.default_price_per_kg.getD 0)
  | none => f.default_price_per_kg.getD 0

/-- One feed's allocation: dry matter share, as-fed weight, protein,
energy and cost contributions, before per-entry rounding. -/
structure FeedAlloc where
  feed : FeedItem
  dm : ℚ
  asFed : ℚ
  cp : ℚ
  tdn : ℚ
  cost : ℚ
deriving DecidableEq

/-- Roughage allocation (source lines 4065-4094): an equal dry-matter
share per roughage feed; the TDN default for a missing
`tdn_percentage` is 50. -/
def roughageAlloc (req : RationCalculationRequest) (per_roughage_dm : ℚ)
    (f : FeedItem) : FeedAlloc :=
  let as_fed_kg := per_roughage_dm / (f.dm_percentage / 100)
  let price := feedPrice req f
  { feed := f
    dm := per_roughage_dm
    asFed := as_fed_kg
    cp := per_roughage_dm * f.cp_percentage * 10
    tdn := per_roughage_dm * ((f.tdn_percentage.getD 50) / 100)
    cost := as_fed_kg * price }

/-- Concentrate allocation (source lines 4097-4128).  The
`per_concentrate_dm` variable is mutated by the max-inclusion cap and
the capped value carries over to the remaining feeds; a zero
`max_inclusion_percentage` is falsy and ignored.  The TDN default is
70. -/
def concentrateAllocs (req : RationCalculationRequest) (dm_required : ℚ) :
    ℚ → List FeedItem → List FeedAlloc
  | _, [] => []
  | per_concentrate_dm, f :: fs =>
    let per :=
      match f.max_inclusion_percentage with
      | some m => if m = 0 then per_concentrate_dm
                  else min per_concentrate_dm (dm_required * (m / 100))
      | none => per_concentrate_dm
    let as_fed_kg := per / (f.dm_percentage / 100)
    let price := feedPrice req f
    { feed := f
      dm := per
      asFed := as_fed_kg
      cp := per * f.cp_percentage * 10
      tdn := per * ((f.tdn_percentage.getD 70) / 100)
      cost := as_fed_kg * price } :: concentrateAllocs req dm_required per fs

/-- Fixed mineral quantity (source line 4132): 0.05 kg when the feed
name contains "salt" (case-insensitively), else 0.03 kg. -/
def mineralQuantity (f : FeedItem) : ℚ :=
  if containsSub (pyLower f.name).toList "salt".toList then 5 / 100 else 3 / 100

/-- A roughage or concentrate entry of `suggested_ration`, with the
per-entry rounding of the source (lines 4076-4085 / 4114-4123). -/
def entryOfAlloc (a : FeedAlloc) : RationEntry :=
  { feed_id := a.feed.id
    feed_name := a.feed.name
    category := a.feed.category
    quantity_kg := pyRound 2 a.asFed
    dm_kg := pyRound 2 a.dm
    cp_g := pyRound 1 a.cp
    tdn_kg := pyRound 2 a.tdn
    cost := pyRound 2 a.cost }

/-- A mineral entry of `suggested_ration` (source lines 4136-4145):
fixed quantity, `cp_g` and `tdn_kg` hard-coded to 0. -/
def entryOfMineral (req : RationCalculationRequest) (f : FeedItem) : RationEntry :=
  let quantity := mineralQuantity f
  { feed_id := f.id
    feed_name := f.name
    category := f.category
    quantity_kg := pyRound 3 quantity
    dm_kg := pyRound 3 quantity
    cp_g := 0
    tdn_kg := 0
    cost := pyRound 2 (quantity * feedPrice req f) }

/-- Accumulation `total += ...` over a list of allocations, in loop
order. -/
def sumAlloc (g : FeedAlloc → ℚ) (allocs : List FeedAlloc) (start : ℚ) : ℚ :=
  allocs.foldl (fun acc a => acc + g a) start

/-- The mineral loop's contribution to `total_cost` (source lines
4131-4146). -/
def mineralCostSum (req : RationCalculationRequest) (fs : List FeedItem)
    (start : ℚ) : ℚ :=
  fs.foldl (fun acc f => acc + mineralQuantity f * feedPrice req f) start

/-- `dm_required` (source lines 4029-4033): body weight share plus a
milk allowance when lactating; `rule.get("milk_allowance_dm_per_litre")`
is truthy only when present and nonzero. -/
def dmRequired (rule : SpeciesNutritionRule) (req : RationCalculationRequest) : ℚ :=
  let body := req.body_weight_kg * (rule.dm_percentage_bw / 100)
  let milk_yield := req.milk_yield_liters.getD 0
  match rule.milk_allowance_dm_per_litre with
  | some a => if milk_yield > 0 ∧ a ≠ 0 then body + milk_yield * a else body
  | none => body

/-- The roughage feeds bucket. -/
def roughageBucket (feeds : List FeedItem) : List FeedItem :=
  feeds.filter (fun f => isRoughageCat f.category)

/-- The concentrate feeds bucket. -/
def concentrateBucket (feeds : List FeedItem) : List FeedItem :=
  feeds.filter (fun f => isConcentrateCat f.category)

/-- The mineral feeds bucket. -/
def mineralBucket (feeds : List FeedItem) : List FeedItem :=
  feeds.filter (fun f => isMineralCat f.category)

/-- The roughage allocations of a request (source lines 4061-4066):
the roughage dry-matter target split evenly across the roughage
feeds.  Empty bucket: no allocations. -/
def rationRoughageAllocs (rule : SpeciesNutritionRule)
    (req : RationCalculationRequest) (feeds : List FeedItem) : List FeedAlloc :=
  let dm_required := dmRequired rule req
  let roughage_dm_target := dm_required * ((rule.roughage_min_percentage.getD 60) / 100)
  let bucket := roughageBucket feeds
  bucket.map (roughageAlloc req (roughage_dm_target / bucket.length))

/-- The concentrate allocations of a request (source lines 4062,
4096-4098): the remaining dry matter split across concentrate feeds,
only when that remainder is positive. -/
def rationConcentrateAllocs (rule : SpeciesNutritionRule)
    (req : RationCalculationRequest) (feeds : List FeedItem) : List FeedAlloc :=
  let dm_required := dmRequired rule req
  let roughage_dm_target := dm_required * ((rule.roughage_min_percentage.getD 60) / 100)
  let concentrate_dm_target := dm_required - roughage_dm_target
  let bucket := concentrateBucket feeds
  if concentrate_dm_target > 0 then
    concentrateAllocs req dm_required (concentrate_dm_target / bucket.length) bucket
  else []

/-- The result record `calculate_ration_internal` assembles once the
feed list is known to be non-empty (source lines 4048-4194). -/
def rationResultOf (ruleOpt : Option SpeciesNutritionRule)
    (req : RationCalculationRequest) (feeds : List FeedItem) : RationResult :=
  let rule := ruleOpt.getD defaultNutritionRule
  let milk_yield := req.milk_yield_liters.getD 0
  let dm_required := dmRequired rule req
  let cp_required_g := dm_required * rule.cp_requirement_percentage * 10
  let tdn_required := dm_required * ((rule.tdn_requirement_percentage.getD 60) / 100)
  let rAllocs := rationRoughageAllocs rule req feeds
  let cAllocs := rationConcentrateAllocs rule req feeds
  let minerals := mineralBucket feeds
  let total_dm := sumAlloc (fun a => a.dm) (rAllocs ++ cAllocs) 0
  let total_cp := sumAlloc (fun a => a.cp) (rAllocs ++ cAllocs) 0
  let total_tdn := sumAlloc (fun a => a.tdn) (rAllocs ++ cAllocs) 0
  let total_cost := mineralCostSum req minerals (sumAlloc (fun a => a.cost) (rAllocs ++ cAllocs) 0)
  let warnings := (roughageBucket feeds).foldl (fun w f => w ++ f.warnings) []
  let protein_status :=
    if total_cp < cp_required_g * (9 / 10) then "deficient"
    else if total_cp > cp_required_g * (12 / 10) then "excess"
    else "adequate"
  let energy_status :=
    if total_tdn < tdn_required * (9 / 10) then "deficient"
    else if total_tdn > tdn_required * (12 / 10) then "excess"
    else "adequate"
  let advice :=
    (if total_cp < cp_required_g * (9 / 10) then
      ["Protein is deficient. Consider adding more protein-rich concentrates like oil cakes."]
    else if total_cp > cp_required_g * (12 / 10) then
      ["Protein is in excess. This may increase costs without benefit."]
    else []) ++
    (if total_tdn < tdn_required * (9 / 10) then
      ["Energy is deficient. Consider adding more energy-rich feeds."]
    else [])
  { species := req.species
    body_weight_kg := req.body_weight_kg
    physiological_status := req.physiological_status
    milk_yield_liters := milk_yield
    dm_required_kg := pyRound 2 dm_required
    cp_required_g := pyRound 1 cp_required_g
    tdn_required_kg := pyRound 2 tdn_required
    suggested_ration :=
      rAllocs.map entryOfAlloc ++ cAllocs.map entryOfAlloc ++
      minerals.map (entryOfMineral req)
    total_dm_provided_kg := pyRound 2 total_dm
    total_cp_provided_g := pyRound 1 total_cp
    total_tdn_provided_kg := pyRound 2 total_tdn
    protein_status := protein_status
    energy_status := energy_status
    daily_feed_cost := pyRound 2 total_cost
    cost_per_litre_milk :=
      if milk_yield > 0 then some (pyRound 2 (total_cost / milk_yield)) else none
    warnings := warnings
    advice := advice }

/-- The roughage loop divides by `feed["dm_percentage"] / 100` for
every roughage feed (source line 4068): it raises `ZeroDivisionError`
exactly when some roughage feed has a zero `dm_percentage`. -/
def zeroDMRoughage (feeds : List FeedItem) : Bool :=
  (roughageBucket feeds).any (fun f => decide (f.dm_percentage = 0))

/-- The concentrate loop (guard `concentrate_feeds and
concentrate_dm_target > 0`, source line 4097) divides by
`feed["dm_percentage"] / 100` for every concentrate feed it reaches
(source line 4106): it raises `ZeroDivisionError` exactly when it runs
and some concentrate feed has a zero `dm_percentage`. -/
def zeroDMConcentrate (rule : SpeciesNutritionRule)
    (req : RationCalculationRequest) (feeds : List FeedItem) : Bool :=
  let dm_required := dmRequired rule req
  let roughage_dm_target := dm_required * ((rule.roughage_min_percentage.getD 60) / 100)
  let concentrate_dm_target := dm_required - roughage_dm_target
  !(concentrateBucket feeds).isEmpty && decide (concentrate_dm_target > 0) &&
    (concentrateBucket feeds).any (fun f => decide (f.dm_percentage = 0))

/-- `calculate_ration_internal(request)` given the resolved nutrition
rule (`none` when no rule matched) and the resolved feed documents.
The empty-feed guard (source lines 4044-4045) raises a 400 error; an
allocated feed with `dm_percentage == 0` makes the as-fed division
raise an unhandled `ZeroDivisionError` (source lines 4068/4106), after
which the whole computation is discarded, so checking before
assembling the result is observationally equivalent.  The pure
requirement computations are hoisted into `rationResultOf`. -/
def calculate_ration_internal (ruleOpt : Option SpeciesNutritionRule)
    (req : RationCalculationRequest) (feeds : List FeedItem) :
    Except String RationResult :=
  if feeds.isEmpty then Except.error "No valid feeds selected"
  else if zeroDMRoughage feeds ||
      zeroDMConcentrate (ruleOpt.getD defaultNutritionRule) req feeds then
    Except.error "ZeroDivisionError: float division by zero"
  else Except.ok (rationResultOf ruleOpt req feeds)

/- ===================== CONCRETE TEST INSTANCES ===================== -/

/-- The worked example of the GVA documentation: cattle=100,
buffalo=50, milk yield 8 L/day, milk price 45. -/
def gvaExampleInputs : GVAInputBase :=
  { cattle_count := 100
    buffalo_count := 50
    avg_milk_yield_per_day := 8
    milk_price_per_litre := 45 }

/-- A settings map whose `milk` group is present but lacks the
`breedable_percentage` key. -/
def partialMilkGVASettings : GVASettings :=
  { milk := some
      { breedable_percentage := none
        in_milk_percentage := some 60
        input_cost_percentage := some 40 }
    sheep_goat := none
    buffalo_meat := none
    poultry_meat := none
    egg := none }

/-- A settings map with every group absent. -/
def emptyGVASettings : GVASettings :=
  { milk := none, sheep_goat := none, buffalo_meat := none,
    poultry_meat := none, egg := none }

/-- An inverted reference range: normal_min = 5 above normal_max = 3. -/
def invertedRefData : ReferenceData :=
  { normal_min := some 5
    normal_max := some 3
    unit := some "mg/dL"
    increase_causes := ["Dehydration"]
    decrease_causes := ["Anemia"]
    special_symptoms := []
    suggested_actions := ["Retest"] }

/-- A well-formed reference range 1..2 used as a witness input. -/
def simpleRefData : ReferenceData :=
  { normal_min := some 1
    normal_max := some 2
    unit := some "mg/dL"
    increase_causes := ["Dehydration"]
    decrease_causes := ["Anemia"]
    special_symptoms := []
    suggested_actions := ["Retest"] }

/-- A reference range whose increase causes name two zoonotic
diseases, Anthrax before Rabies. -/
def twoDiseaseRefData : ReferenceData :=
  { normal_min := some 1
    normal_max := some 2
    unit := none
    increase_causes := ["Anthrax suspected", "Rabies suspected"]
    decrease_causes := []
    special_symptoms := []
    suggested_actions := [] }

/-- A knowledge-center collection holding only the two-disease entry
for (blood, CBC, cattle). -/
def twoDiseaseTable : List KnowledgeCenterEntry :=
  [{ test_category := "blood"
     test_type := "CBC"
     species := "cattle"
     reference_data := twoDiseaseRefData }]

/-- A zero/default ration request with no custom prices. -/
def zeroRationRequest : RationCalculationRequest :=
  { species := "cattle"
    body_weight_kg := 0
    physiological_status := "maintenance"
    milk_yield_liters := none
    feed_prices := none }

/-- A roughage feed used as a witness input. -/
def sampleRoughageFeed : FeedItem :=
  { id := "f1"
    name := "Napier grass"
    category := "green_fodder_non_legume"
    dm_percentage := 20
    cp_percentage := 8
    tdn_percentage := some 55
    default_price_per_kg := some 2
    max_inclusion_percentage := none
    warnings := [] }

/-- A roughage feed with a zero dry-matter percentage, on which the
as-fed conversion divides by zero. -/
def zeroDMRoughageFeed : FeedItem :=
  { id := "f3"
    name := "Paddy straw"
    category := "dry_fodder"
    dm_percentage := 0
    cp_percentage := 3
    tdn_percentage := none
    default_price_per_kg := none
    max_inclusion_percentage := none
    warnings := [] }

/-- A mineral feed whose name contains "Salt". -/
def sampleSaltFeed : FeedItem :=
  { id := "f2"
    name := "Common Salt"
    category := "minerals"
    dm_percentage := 100
    cp_percentage := 0
    tdn_percentage := none
    default_price_per_kg := some 10
    max_inclusion_percentage := none
    warnings := [] }

/-- The parameter values `resolveGVASettings` extracts from the
compiled-in defaults. -/
def DEFAULT_RESOLVED_GVA_PARAMS : ResolvedGVAParams :=
  { milk_breedable_percentage := 70
    milk_in_milk_percentage := 60
    milk_input_cost_percentage := 40
    sheep_goat_slaughter_rate := 45
    sheep_goat_seasons_per_year := 3
    sheep_goat_input_cost_percentage := 20
    buffalo_slaughter_rate := 25
    buffalo_input_cost_percentage := 15
    poultry_batches_per_year := 8
    poultry_slaughter_rate := 95
    poultry_dressing_percentage := 70
    poultry_input_cost_percentage := 45
    egg_input_cost_percentage := 40 }

/- =========================== THEOREMS =========================== -/

/-- Bridge from the executable `Rat.floor` to `Int.floor`. -/
theorem ratFloor_eq_intFloor (q : ℚ) : q.floor = ⌊q⌋ :=
  (Rat.floor_def' q).trans Rat.floor_def.symm

/-- Restate `pyInt` through `Int.floor`, for `norm_num` evaluation. -/
theorem pyInt_eq_floor (q : ℚ) : pyInt q = if 0 ≤ q then ⌊q⌋ else -⌊-q⌋ := by
  unfold pyInt
  split <;> rw [ratFloor_eq_intFloor]

/-- A `pyInt` applied to an integer value is that integer. -/
theorem pyInt_intCast (k : ℤ) : pyInt (k : ℚ) = k := by
  rw [pyInt_eq_floor]
  split
  · rw [Int.floor_intCast]
  · rw [← Int.cast_neg, Int.floor_intCast, neg_neg]

/-- Sanity check: resolving the default settings succeeds with the
default parameter values. -/
theorem resolve_default_gva_settings :
    resolveGVASettings DEFAULT_GVA_SETTINGS = some DEFAULT_RESOLVED_GVA_PARAMS := rfl

/-- Claim C1 (counterexample): on the documented example inputs with the
default settings, the code yields milk_annual_production = 183960
(504 L/day x 365), not the 184020 the claim states; so the claim's
annual/GSDP/input-cost/GVA figures are not what the code computes. -/
theorem gva_example_annual_ne_claimed :
    (calculate_gva gvaExampleInputs DEFAULT_GVA_SETTINGS).map
      (fun r => r.milk_annual_production) = some 183960 ∧
    (183960 : ℚ) ≠ 184020 := by
  constructor
  · norm_num [calculate_gva, resolveGVASettings, computeGVA, DEFAULT_GVA_SETTINGS,
      DEFAULT_MILK_SETTINGS, DEFAULT_SHEEP_GOAT_SETTINGS, DEFAULT_BUFFALO_MEAT_SETTINGS,
      DEFAULT_POULTRY_MEAT_SETTINGS, DEFAULT_EGG_SETTINGS, gvaExampleInputs,
      pyInt_eq_floor, Option.map, Option.bind]
  · norm_num

/-- Claim C1 (amended): with cattle=100, buffalo=50, yield 8, price 45
and the default settings, the milk chain yields breedable=105,
in-milk=63, daily=504, annual=183960, GSDP=8278200,
input cost=3311280 and GVA=4966920. -/
theorem gva_example_milk_chain_values :
    (calculate_gva gvaExampleInputs DEFAULT_GVA_SETTINGS).map
      (fun r => (r.milk_breedable_animals, r.milk_in_milk_animals,
        r.milk_daily_production, r.milk_annual_production, r.milk_gsdp,
        r.milk_input_cost, r.milk_gva)) =
      some (105, 63, 504, 183960, 8278200, 3311280, 4966920) := by
  norm_num [calculate_gva, resolveGVASettings, computeGVA, DEFAULT_GVA_SETTINGS,
    DEFAULT_MILK_SETTINGS, DEFAULT_SHEEP_GOAT_SETTINGS, DEFAULT_BUFFALO_MEAT_SETTINGS,
    DEFAULT_POULTRY_MEAT_SETTINGS, DEFAULT_EGG_SETTINGS, gvaExampleInputs,
    pyInt_eq_floor, Option.map, Option.bind, Prod.ext_iff]

/-- Claim C2: whenever `calculate_gva` returns a result, its
total_village_gva is exactly the sum of the five category GVA
fields. -/
theorem gva_total_is_sum_of_categories (inputs : GVAInputBase)
    (settings : GVASettings) (r : GVACalculationResult)
    (h : calculate_gva inputs settings = some r) :
    r.total_village_gva =
      r.milk_gva + r.sheep_goat_gva + r.buffalo_meat_gva +
      r.poultry_meat_gva + r.egg_gva := by
  rw [calculate_gva] at h
  obtain ⟨p, _, rfl⟩ := Option.map_eq_some'.mp h
  rfl

/-- Witness for C2 at the all-zero inputs and default settings. -/
theorem gva_total_is_sum_of_categories_witness :
    (computeGVA {} DEFAULT_RESOLVED_GVA_PARAMS).total_village_gva =
      (computeGVA {} DEFAULT_RESOLVED_GVA_PARAMS).milk_gva +
      (computeGVA {} DEFAULT_RESOLVED_GVA_PARAMS).sheep_goat_gva +
      (computeGVA {} DEFAULT_RESOLVED_GVA_PARAMS).buffalo_meat_gva +
      (computeGVA {} DEFAULT_RESOLVED_GVA_PARAMS).poultry_meat_gva +
      (computeGVA {} DEFAULT_RESOLVED_GVA_PARAMS).egg_gva :=
  gva_total_is_sum_of_categories {} DEFAULT_GVA_SETTINGS _ rfl

/-- Claim C5 (counterexample): a settings map whose `milk` group is
present but lacks `breedable_percentage` makes `calculate_gva` fail
(the `KeyError` of `milk_settings["breedable_percentage"]`), instead
of falling back to the default for the missing key. -/
theorem gva_partial_milk_group_fails :
    calculate_gva ({} : GVAInputBase) partialMilkGVASettings = none := rfl

/-- Claim C5 (amended): the fallback is per category group, not per
key: a category group absent from the settings map is replaced by the
complete compiled-in default group; a group that is present but
missing one of its keys makes the calculation fail. -/
theorem gva_settings_group_fallback (inputs : GVAInputBase)
    (settings : GVASettings) :
    (settings.milk = none →
      calculate_gva inputs settings =
        calculate_gva inputs { settings with milk := some DEFAULT_MILK_SETTINGS }) ∧
    (∀ g, settings.milk = some g → g.breedable_percentage = none →
      calculate_gva inputs settings = none) := by
  constructor
  · intro h
    unfold calculate_gva resolveGVASettings
    rw [h]
    rfl
  · intro g hg hb
    unfold calculate_gva resolveGVASettings
    rw [hg]
    simp only [Option.getD_some]
    rw [hb]
    rfl

/-- Witness for C5: group fallback on the all-absent settings map, and
failure on the present-but-partial milk group. -/
theorem gva_settings_group_fallback_witness :
    (calculate_gva ({} : GVAInputBase) emptyGVASettings =
      calculate_gva ({} : GVAInputBase)
        { emptyGVASettings with milk := some DEFAULT_MILK_SETTINGS }) ∧
    calculate_gva ({} : GVAInputBase) partialMilkGVASettings = none :=
  ⟨(gva_settings_group_fallback {} emptyGVASettings).1 rfl,
   (gva_settings_group_fallback {} partialMilkGVASettings).2 _ rfl rfl⟩

/-- Claim C9 (counterexample): doubling cattle_count from 1 to 2 with
buffalo_count = 0 under the default settings does not double
milk_breedable_animals: int(1*70/100) = 0 but int(2*70/100) = 1. -/
theorem gva_doubling_fails_on_truncation :
    (calculate_gva { cattle_count := 1 } DEFAULT_GVA_SETTINGS).map
      (fun r => r.milk_breedable_animals) = some 0 ∧
    (calculate_gva { cattle_count := 2 } DEFAULT_GVA_SETTINGS).map
      (fun r => r.milk_breedable_animals) = some 1 ∧
    (1 : ℤ) ≠ 2 * 0 := by
  refine ⟨?_, ?_, by norm_num⟩ <;>
    norm_num [calculate_gva, resolveGVASettings, computeGVA, DEFAULT_GVA_SETTINGS,
      DEFAULT_MILK_SETTINGS, DEFAULT_SHEEP_GOAT_SETTINGS, DEFAULT_BUFFALO_MEAT_SETTINGS,
      DEFAULT_POULTRY_MEAT_SETTINGS, DEFAULT_EGG_SETTINGS,
      pyInt_eq_floor, Option.map, Option.bind]

/-- Claim C9 (amended): the doubling law holds exactly when the
pre-truncation value cattle_count x breedable_percentage / 100 is an
integer; the `int()` truncation breaks it otherwise. -/
theorem gva_doubling_milk_breedable_exact (inputs : GVAInputBase)
    (settings : GVASettings) (p : ResolvedGVAParams)
    (r r' : GVACalculationResult) (k : ℤ)
    (hp : resolveGVASettings settings = some p)
    (hb : inputs.buffalo_count = 0)
    (hk : (inputs.cattle_count : ℚ) * p.milk_breedable_percentage / 100 = (k : ℚ))
    (h1 : calculate_gva inputs settings = some r)
    (h2 : calculate_gva { inputs with cattle_count := 2 * inputs.cattle_count }
      settings = some r') :
    r'.milk_breedable_animals = 2 * r.milk_breedable_animals := by
  rw [calculate_gva, hp, Option.map_some'] at h1 h2
  obtain rfl : computeGVA inputs p = r := Option.some_inj.mp h1
  obtain rfl : computeGVA _ p = r' := Option.some_inj.mp h2
  simp only [computeGVA, hb]
  have e1 : ((inputs.cattle_count + 0 : ℤ) : ℚ) * p.milk_breedable_percentage / 100
      = (k : ℚ) := by
    rw [add_zero]; exact hk
  have e2 : ((2 * inputs.cattle_count + 0 : ℤ) : ℚ) * p.milk_breedable_percentage / 100
      = ((2 * k : ℤ) : ℚ) := by
    push_cast
    rw [add_zero, mul_assoc, mul_div_assoc, hk]
  rw [e1, e2, pyInt_intCast, pyInt_intCast]

/-- Witness for C9 at cattle_count = 10 (10 x 70 / 100 = 7, exact). -/
theorem gva_doubling_milk_breedable_exact_witness :
    (computeGVA { cattle_count := 2 * 10 } DEFAULT_RESOLVED_GVA_PARAMS).milk_breedable_animals =
      2 * (computeGVA ({ cattle_count := 10 } : GVAInputBase)
        DEFAULT_RESOLVED_GVA_PARAMS).milk_breedable_animals :=
  gva_doubling_milk_breedable_exact { cattle_count := 10 } DEFAULT_GVA_SETTINGS
    DEFAULT_RESOLVED_GVA_PARAMS _ _ 7 rfl rfl (by norm_num [DEFAULT_RESOLVED_GVA_PARAMS])
    rfl rfl

/-- A disease found by the inner scan loop is in the high-risk list,
so `get_safety_alert` returns its template. -/
theorem get_safety_alert_of_conditionDisease (c d : String)
    (h : conditionDisease c = some d) :
    get_safety_alert d = some (safetyAlertTemplate d) := by
  have hmem : d ∈ HIGH_RISK_DISEASES := List.mem_of_find?_eq_some h
  simp only [HIGH_RISK_DISEASES, List.mem_cons, List.mem_singleton,
    List.not_mem_nil, or_false] at hmem
  rcases hmem with rfl | rfl | rfl | rfl | rfl | rfl | rfl <;> rfl

/-- The zoonotic scan keeps the alert of the last condition that has a
match: the `break` in the source only leaves the inner disease loop. -/
theorem scanSafetyAlert_eq_last_match (conds : List String) (d : String)
    (h : (conds.filterMap conditionDisease).getLast? = some d) :
    scanSafetyAlert conds = some (safetyAlertTemplate d) := by
  induction conds using List.reverseRecOn with
  | nil => simp at h
  | append_singleton ds c ih =>
    rw [List.filterMap_append] at h
    rw [scanSafetyAlert, List.foldl_append]
    cases hc : conditionDisease c with
    | some d' =>
      simp only [hc, List.filterMap_cons_some, List.filterMap_nil,
        List.getLast?_concat, Option.some_inj] at h
      subst h
      simp only [List.foldl_cons, List.foldl_nil, hc,
        get_safety_alert_of_conditionDisease c d' hc]
    | none =>
      simp only [hc, List.filterMap_cons_none, List.filterMap_nil,
        List.append_nil] at h
      simp only [List.foldl_cons, List.foldl_nil, hc]
      exact ih h

/-- The safety alert field of an interpretation is the scan of its
possible conditions. -/
theorem interpretRef_safety_alert_eq (ref : Option ReferenceData)
    (value : Option ℚ) (value_text : Option String) :
    (interpretRef ref value value_text).safety_alert =
      scanSafetyAlert (interpretRef ref value value_text).possible_conditions := by
  cases ref <;> rfl

/-- Claim C6 (counterexample): with possible conditions
["Anthrax suspected", "Rabies suspected"] (value 3 above the 1..2
range), the attached alert names Rabies, the disease matched by the
LAST matching condition, not Anthrax from the first. -/
theorem safety_alert_not_first_match :
    ((interpret_diagnostic twoDiseaseTable "blood" "CBC" "cattle" (some 3)
      none).safety_alert).map (fun a => a.disease) = some "Rabies" ∧
    ("Rabies" : String) ≠ "Anthrax" := by
  constructor
  · rfl
  · decide

/-- Claim C6 (amended): for any possible_conditions list with at least
one match, the safety alert is non-null and names the disease matched
by the last matching condition (each condition matching the first
disease, in list order, that it contains case-insensitively). -/
theorem safety_alert_is_last_match (ref : Option ReferenceData)
    (value : Option ℚ) (value_text : Option String) (d : String)
    (h : ((interpretRef ref value value_text).possible_conditions.filterMap
      conditionDisease).getLast? = some d) :
    (interpretRef ref value value_text).safety_alert =
      some (safetyAlertTemplate d) := by
  rw [interpretRef_safety_alert_eq]
  exact scanSafetyAlert_eq_last_match _ _ h

/-- Witness for C6 on the two-disease reference data. -/
theorem safety_alert_is_last_match_witness :
    (interpretRef (some twoDiseaseRefData) (some 3) none).safety_alert =
      some (safetyAlertTemplate "Rabies") :=
  safety_alert_is_last_match (some twoDiseaseRefData) (some 3) none "Rabies"
    (by decide)

/-- Claim C4: when no reference range matches, `interpret_diagnostic`
returns the safe default: status normal and a non-empty
suggested_actions holding exactly the no-reference-data message,
whatever the remaining inputs are. -/
theorem interpret_no_reference_default (table : List KnowledgeCenterEntry)
    (test_category test_type species : String) (value : Option ℚ)
    (value_text : Option String)
    (h : lookupReference table test_category test_type species = none) :
    interpret_diagnostic table test_category test_type species value value_text =
      { status := "normal"
        normal_range := none
        possible_conditions := []
        special_symptoms := []
        suggested_actions := [NO_REFERENCE_MESSAGE]
        safety_alert := none } ∧
    ([NO_REFERENCE_MESSAGE] : List String) ≠ [] := by
  constructor
  · rw [interpret_diagnostic, h]
    rfl
  · simp

/-- Witness for C4 on the empty knowledge-center collection. -/
theorem interpret_no_reference_default_witness :
    interpret_diagnostic [] "blood" "CBC" "cattle" (some 3) (some "positive") =
      { status := "normal"
        normal_range := none
        possible_conditions := []
        special_symptoms := []
        suggested_actions := [NO_REFERENCE_MESSAGE]
        safety_alert := none } ∧
    ([NO_REFERENCE_MESSAGE] : List String) ≠ [] :=
  interpret_no_reference_default [] "blood" "CBC" "cattle" (some 3)
    (some "positive") rfl

/-- Claim C3 (counterexample): on an inverted range (normal_min = 5,
normal_max = 3) the boundary value 5 = normal_min classifies as high,
not normal, because 5 > 3 fires the strict upper comparison first. -/
theorem interpret_inverted_range_boundary_high :
    (interpretRef (some invertedRefData) (some 5) none).status = "high" ∧
    ("high" : String) ≠ "normal" := by
  constructor
  · rfl
  · decide

/-- Claim C3 (amended): provided normal_min <= normal_max, a numeric
value equal to either bound is normal (strict comparisons), a value
above normal_max is high with the increase causes, a value below
normal_min is low with the decrease causes; and when normal_max is
absent no numeric value is ever classified high. -/
theorem interpret_range_boundaries (rd : ReferenceData) (mn mx v : ℚ)
    (hmin : rd.normal_min = some mn) (hmax : rd.normal_max = some mx)
    (hle : mn ≤ mx) :
    ((v = mn ∨ v = mx) →
      (interpretRef (some rd) (some v) none).status = "normal") ∧
    (v > mx →
      (interpretRef (some rd) (some v) none).status = "high" ∧
      (interpretRef (some rd) (some v) none).possible_conditions =
        rd.increase_causes) ∧
    (v < mn →
      (interpretRef (some rd) (some v) none).status = "low" ∧
      (interpretRef (some rd) (some v) none).possible_conditions =
        rd.decrease_causes) ∧
    (∀ (rd' : ReferenceData) (v' : ℚ), rd'.normal_max = none →
      (interpretRef (some rd') (some v') none).status ≠ "high") := by
  refine ⟨?_, ?_, ?_, ?_⟩
  · rintro (rfl | rfl)
    · have h1 : ¬ (mx < v) := not_lt.mpr hle
      have h2 : ¬ (v < v) := lt_irrefl v
      simp [interpretRef, hmin, hmax, exceedsMax, h1, h2]
    · have h1 : ¬ (v < v) := lt_irrefl v
      have h2 : ¬ (v < mn) := not_lt.mpr hle
      simp [interpretRef, hmin, hmax, exceedsMax, h1, h2]
  · intro hv
    constructor <;> simp [interpretRef, hmin, hmax, exceedsMax, hv]
  · intro hv
    have h1 : ¬ (mx < v) := not_lt.mpr (le_of_lt (lt_of_lt_of_le hv hle))
    constructor <;> simp [interpretRef, hmin, hmax, exceedsMax, h1, hv]
  · intro rd' v' h'
    cases hmin' : rd'.normal_min with
    | none => simp [interpretRef, hmin', h', exceedsMax]
    | some mn' =>
      simp only [interpretRef, hmin', h', exceedsMax, Bool.false_eq_true,
        if_false]
      split <;> simp

/-- Witness for C3 on the range 1..2 at the lower boundary value 1. -/
theorem interpret_range_boundaries_witness :
    (interpretRef (some simpleRefData) (some 1) none).status = "normal" :=
  (interpret_range_boundaries simpleRefData 1 2 1 rfl rfl (by norm_num)).1
    (Or.inl rfl)

/-- A list is a (boolean) prefix of itself followed by anything. -/
theorem isPrefixOf_append_self (l t : List Char) : l.isPrefixOf (l ++ t) = true := by
  induction l with
  | nil => simp [List.isPrefixOf]
  | cons a as ih => simp [List.isPrefixOf, ih]

/-- Sequential creations starting from `m` stored matches generate the
numbers m+1, m+2, ... in order. -/
theorem createCaseNumbers_from (pfx : List Char) (year : ℕ) :
    ∀ (n : ℕ) (docs : List (List Char)) (m : ℕ),
      docs.countP (fun s => (caseNumberPat pfx year).isPrefixOf s) = m →
      createCaseNumbers pfx year docs n =
        (List.range n).map (fun k => mkCaseNumber pfx year (m + k + 1)) := by
  intro n
  induction n with
  | zero => intro docs m _; rfl
  | succ n ih =>
    intro docs m h
    rw [createCaseNumbers]
    have hgen : generate_case_number pfx year docs = mkCaseNumber pfx year (m + 1) := by
      rw [generate_case_number, h]
    have hcount :
        (docs ++ [generate_case_number pfx year docs]).countP
          (fun s => (caseNumberPat pfx year).isPrefixOf s) = m + 1 := by
      rw [List.countP_append, h, hgen, mkCaseNumber]
      simp [isPrefixOf_append_self]
    rw [ih _ (m + 1) hcount, hgen]
    rw [List.range_succ_eq_map, List.map_cons, List.map_map]
    have harith : (fun k => mkCaseNumber pfx year (m + 1 + k + 1)) =
        ((fun k => mkCaseNumber pfx year (m + k + 1)) ∘ (· + 1)) := by
      funext k
      simp only [Function.comp]
      rw [show m + 1 + k + 1 = m + (k + 1) + 1 from by omega]
    rw [harith]

/-- Claim C7: starting from a collection with no record matching
`^{PREFIX}-{YEAR}-`, N sequential creations generate exactly the case
numbers `{PREFIX}-{YEAR}-00001` ... `{PREFIX}-{YEAR}-{N:05d}`, each
call returning the current match count plus one, zero padded. -/
theorem case_numbers_sequential (pfx : List Char) (year : ℕ) (N : ℕ)
    (docs : List (List Char))
    (h : docs.countP (fun s => (caseNumberPat pfx year).isPrefixOf s) = 0) :
    createCaseNumbers pfx year docs N =
      (List.range N).map (fun k => mkCaseNumber pfx year (k + 1)) := by
  have := createCaseNumbers_from pfx year N docs 0 h
  simpa using this

/-- Witness for C7: two creations with the OPD prefix in 2025 on an
empty collection. -/
theorem case_numbers_sequential_witness :
    createCaseNumbers "OPD".toList 2025 [] 2 =
      (List.range 2).map (fun k => mkCaseNumber "OPD".toList 2025 (k + 1)) :=
  case_numbers_sequential "OPD".toList 2025 2 [] rfl

/-- Sanity check: the two generated OPD numbers are the literal
strings OPD-2025-00001 and OPD-2025-00002. -/
theorem case_numbers_sequential_strings :
    createCaseNumbers "OPD".toList 2025 [] 2 =
      ["OPD-2025-00001".toList, "OPD-2025-00002".toList] := by decide

/-- A roughage category string is not a concentrate category. -/
theorem roughage_not_concentrate (s : String) (h : isRoughageCat s = true) :
    isConcentrateCat s = false := by
  simp only [isRoughageCat, Bool.or_eq_true, beq_iff_eq] at h
  rcases h with ((rfl | rfl) | rfl) | rfl <;> rfl

/-- A roughage category string is not a mineral category. -/
theorem roughage_not_mineral (s : String) (h : isRoughageCat s = true) :
    isMineralCat s = false := by
  simp only [isRoughageCat, Bool.or_eq_true, beq_iff_eq] at h
  rcases h with ((rfl | rfl) | rfl) | rfl <;> rfl

/-- A concentrate category string is not a roughage category. -/
theorem concentrate_not_roughage (s : String) (h : isConcentrateCat s = true) :
    isRoughageCat s = false := by
  simp only [isConcentrateCat, Bool.or_eq_true, beq_iff_eq] at h
  rcases h with ((rfl | rfl) | rfl) | rfl <;> rfl

/-- A concentrate category string is not a mineral category. -/
theorem concentrate_not_mineral (s : String) (h : isConcentrateCat s = true) :
    isMineralCat s = false := by
  simp only [isConcentrateCat, Bool.or_eq_true, beq_iff_eq] at h
  rcases h with ((rfl | rfl) | rfl) | rfl <;> rfl

/-- A mineral category string is not a roughage category. -/
theorem mineral_not_roughage (s : String) (h : isMineralCat s = true) :
    isRoughageCat s = false := by
  simp only [isMineralCat, Bool.or_eq_true, beq_iff_eq] at h
  rcases h with rfl | rfl <;> rfl

/-- A mineral category string is not a concentrate category. -/
theorem mineral_not_concentrate (s : String) (h : isMineralCat s = true) :
    isConcentrateCat s = false := by
  simp only [isMineralCat, Bool.or_eq_true, beq_iff_eq] at h
  rcases h with rfl | rfl <;> rfl

/-- Every allocation the concentrate loop produces comes from the feed
list it walks. -/
theorem mem_concentrateAllocs_feed (req : RationCalculationRequest) (dm : ℚ) :
    ∀ (per : ℚ) (fs : List FeedItem) (a : FeedAlloc),
      a ∈ concentrateAllocs req dm per fs → a.feed ∈ fs := by
  intro per fs
  induction fs generalizing per with
  | nil => intro a h; simp [concentrateAllocs] at h
  | cons f fs ih =>
    intro a h
    rw [concentrateAllocs] at h
    rcases List.mem_cons.mp h with rfl | h2
    · exact List.mem_cons_self f fs
    · exact List.mem_cons_of_mem f (ih _ a h2)

/-- Roughage allocations carry roughage-category feeds. -/
theorem rationRoughageAllocs_cat (rule : SpeciesNutritionRule)
    (req : RationCalculationRequest) (feeds : List FeedItem) (a : FeedAlloc)
    (h : a ∈ rationRoughageAllocs rule req feeds) :
    isRoughageCat a.feed.category = true := by
  unfold rationRoughageAllocs at h
  obtain ⟨f, hf, rfl⟩ := List.mem_map.mp h
  exact (List.mem_filter.mp hf).2

/-- Concentrate allocations carry concentrate-category feeds. -/
theorem rationConcentrateAllocs_cat (rule : SpeciesNutritionRule)
    (req : RationCalculationRequest) (feeds : List FeedItem) (a : FeedAlloc)
    (h : a ∈ rationConcentrateAllocs rule req feeds) :
    isConcentrateCat a.feed.category = true := by
  unfold rationConcentrateAllocs at h
  dsimp only at h
  split at h
  · have := mem_concentrateAllocs_feed req _ _ _ a h
    exact (List.mem_filter.mp this).2
  · simp at h

/-- Filtering out minerals leaves the roughage bucket unchanged. -/
theorem roughageBucket_filter_nonMineral (feeds : List FeedItem) :
    roughageBucket (feeds.filter (fun f => !isMineralCat f.category)) =
      roughageBucket feeds := by
  unfold roughageBucket
  rw [List.filter_filter]
  apply List.filter_congr
  intro f _
  cases hr : isRoughageCat f.category
  · simp
  · simp [roughage_not_mineral f.category hr]

/-- Filtering out minerals leaves the concentrate bucket unchanged. -/
theorem concentrateBucket_filter_nonMineral (feeds : List FeedItem) :
    concentrateBucket (feeds.filter (fun f => !isMineralCat f.category)) =
      concentrateBucket feeds := by
  unfold concentrateBucket
  rw [List.filter_filter]
  apply List.filter_congr
  intro f _
  cases hr : isConcentrateCat f.category
  · simp
  · simp [concentrate_not_mineral f.category hr]

/-- Filtering out minerals empties the mineral bucket. -/
theorem mineralBucket_filter_nonMineral (feeds : List FeedItem) :
    mineralBucket (feeds.filter (fun f => !isMineralCat f.category)) = [] := by
  unfold mineralBucket
  rw [List.filter_filter]
  apply List.filter_eq_nil_iff.mpr
  intro f _
  simp

/-- Roughage allocations are untouched by removing mineral feeds. -/
theorem rationRoughageAllocs_filter_nonMineral (rule : SpeciesNutritionRule)
    (req : RationCalculationRequest) (feeds : List FeedItem) :
    rationRoughageAllocs rule req (feeds.filter (fun f => !isMineralCat f.category)) =
      rationRoughageAllocs rule req feeds := by
  unfold rationRoughageAllocs
  rw [roughageBucket_filter_nonMineral]

/-- Concentrate allocations are untouched by removing mineral feeds. -/
theorem rationConcentrateAllocs_filter_nonMineral (rule : SpeciesNutritionRule)
    (req : RationCalculationRequest) (feeds : List FeedItem) :
    rationConcentrateAllocs rule req (feeds.filter (fun f => !isMineralCat f.category)) =
      rationConcentrateAllocs rule req feeds := by
  unfold rationConcentrateAllocs
  rw [concentrateBucket_filter_nonMineral]

/-- A filter by category over entries whose categories all refute the
predicate is empty. -/
theorem entries_filter_nil {p : String → Bool} (entries : List RationEntry)
    (h : ∀ e ∈ entries, p e.category = false) :
    entries.filter (fun e => p e.category) = [] :=
  List.filter_eq_nil_iff.mpr (fun e he => by simp [h e he])

/-- The suggested ration decomposed into its three blocks. -/
theorem rationResultOf_suggested (ruleOpt : Option SpeciesNutritionRule)
    (req : RationCalculationRequest) (feeds : List FeedItem) :
    (rationResultOf ruleOpt req feeds).suggested_ration =
      (rationRoughageAllocs (ruleOpt.getD defaultNutritionRule) req feeds).map entryOfAlloc ++
      (rationConcentrateAllocs (ruleOpt.getD defaultNutritionRule) req feeds).map entryOfAlloc ++
      (mineralBucket feeds).map (entryOfMineral req) := rfl

/-- The roughage zero-dm check is unchanged by removing minerals. -/
theorem zeroDMRoughage_filter_nonMineral (feeds : List FeedItem) :
    zeroDMRoughage (feeds.filter (fun f => !isMineralCat f.category)) =
      zeroDMRoughage feeds := by
  unfold zeroDMRoughage
  rw [roughageBucket_filter_nonMineral]

/-- The concentrate zero-dm check is unchanged by removing minerals. -/
theorem zeroDMConcentrate_filter_nonMineral (rule : SpeciesNutritionRule)
    (req : RationCalculationRequest) (feeds : List FeedItem) :
    zeroDMConcentrate rule req (feeds.filter (fun f => !isMineralCat f.category)) =
      zeroDMConcentrate rule req feeds := by
  unfold zeroDMConcentrate
  rw [concentrateBucket_filter_nonMineral]

/-- Claim C8 (counterexample): a request whose selected feeds resolve
to the empty list makes `calculate_ration_internal` raise the 400
"No valid feeds selected" error rather than return a result, even with
all-zero inputs. -/
theorem ration_empty_feeds_errors :
    calculate_ration_internal none zeroRationRequest [] =
      Except.error "No valid feeds selected" := rfl

/-- Claim C8 (amended): with a non-empty resolved feed list whose
allocated feeds all have a nonzero dm_percentage, the engine returns a
result without error and any category with no selected feeds
contributes no ration entries; an empty resolved feed list raises the
400 error of the counterexample, and a zero-dm_percentage feed reached
by the roughage or concentrate loop raises ZeroDivisionError. -/
theorem ration_nonempty_result (ruleOpt : Option SpeciesNutritionRule)
    (req : RationCalculationRequest) (feeds : List FeedItem)
    (hne : feeds ≠ []) :
    ((∀ f ∈ feeds, f.dm_percentage ≠ 0) →
      ∃ r, calculate_ration_internal ruleOpt req feeds = Except.ok r ∧
        (roughageBucket feeds = [] →
          r.suggested_ration.filter (fun e => isRoughageCat e.category) = []) ∧
        (concentrateBucket feeds = [] →
          r.suggested_ration.filter (fun e => isConcentrateCat e.category) = []) ∧
        (mineralBucket feeds = [] →
          r.suggested_ration.filter (fun e => isMineralCat e.category) = [])) ∧
    (zeroDMRoughage feeds = true ∨
      zeroDMConcentrate (ruleOpt.getD defaultNutritionRule) req feeds = true →
      calculate_ration_internal ruleOpt req feeds =
        Except.error "ZeroDivisionError: float division by zero") := by
  have hnotempty : ¬ (feeds.isEmpty = true) := by
    rw [List.isEmpty_iff]
    exact hne
  constructor
  · intro hdm
    have hzr : zeroDMRoughage feeds = false := by
      unfold zeroDMRoughage
      rw [Bool.eq_false_iff]
      intro hany
      obtain ⟨f, hf, hp⟩ := List.any_eq_true.mp hany
      exact hdm f (List.mem_of_mem_filter hf) (of_decide_eq_true hp)
    have hzc : zeroDMConcentrate (ruleOpt.getD defaultNutritionRule) req feeds
        = false := by
      unfold zeroDMConcentrate
      have hany : (concentrateBucket feeds).any
          (fun f => decide (f.dm_percentage = 0)) = false := by
        rw [Bool.eq_false_iff]
        intro hany
        obtain ⟨f, hf, hp⟩ := List.any_eq_true.mp hany
        exact hdm f (List.mem_of_mem_filter hf) (of_decide_eq_true hp)
      rw [hany, Bool.and_false]
    refine ⟨rationResultOf ruleOpt req feeds, ?_, ?_, ?_, ?_⟩
    · rw [calculate_ration_internal, if_neg hnotempty, if_neg]
      rw [hzr, hzc]
      simp
    · intro hb
      rw [rationResultOf_suggested, List.filter_append, List.filter_append]
      have h1 : rationRoughageAllocs (ruleOpt.getD defaultNutritionRule) req feeds = [] := by
        unfold rationRoughageAllocs
        rw [hb]
        rfl
      have h2 : ((rationConcentrateAllocs (ruleOpt.getD defaultNutritionRule) req
          feeds).map entryOfAlloc).filter (fun e => isRoughageCat e.category) = [] := by
        apply entries_filter_nil
        intro e he
        obtain ⟨a, ha, rfl⟩ := List.mem_map.mp he
        exact concentrate_not_roughage _ (rationConcentrateAllocs_cat _ _ _ _ ha)
      have h3 : (((mineralBucket feeds).map (entryOfMineral req)).filter
          (fun e => isRoughageCat e.category)) = [] := by
        apply entries_filter_nil
        intro e he
        obtain ⟨f, hf, rfl⟩ := List.mem_map.mp he
        exact mineral_not_roughage _ (List.mem_filter.mp hf).2
      rw [h1, h2, h3]
      rfl
    · intro hb
      rw [rationResultOf_suggested, List.filter_append, List.filter_append]
      have h1 : rationConcentrateAllocs (ruleOpt.getD defaultNutritionRule) req feeds = [] := by
        unfold rationConcentrateAllocs
        rw [hb]
        dsimp only
        split <;> rfl
      have h2 : ((rationRoughageAllocs (ruleOpt.getD defaultNutritionRule) req
          feeds).map entryOfAlloc).filter (fun e => isConcentrateCat e.category) = [] := by
        apply entries_filter_nil
        intro e he
        obtain ⟨a, ha, rfl⟩ := List.mem_map.mp he
        exact roughage_not_concentrate _ (rationRoughageAllocs_cat _ _ _ _ ha)
      have h3 : (((mineralBucket feeds).map (entryOfMineral req)).filter
          (fun e => isConcentrateCat e.category)) = [] := by
        apply entries_filter_nil
        intro e he
        obtain ⟨f, hf, rfl⟩ := List.mem_map.mp he
        exact mineral_not_concentrate _ (List.mem_filter.mp hf).2
      rw [h1, h2, h3]
      rfl
    · intro hb
      rw [rationResultOf_suggested, List.filter_append, List.filter_append, hb]
      have h2 : ((rationRoughageAllocs (ruleOpt.getD defaultNutritionRule) req
          feeds).map entryOfAlloc).filter (fun e => isMineralCat e.category) = [] := by
        apply entries_filter_nil
        intro e he
        obtain ⟨a, ha, rfl⟩ := List.mem_map.mp he
        exact roughage_not_mineral _ (rationRoughageAllocs_cat _ _ _ _ ha)
      have h3 : ((rationConcentrateAllocs (ruleOpt.getD defaultNutritionRule) req
          feeds).map entryOfAlloc).filter (fun e => isMineralCat e.category) = [] := by
        apply entries_filter_nil
        intro e he
        obtain ⟨a, ha, rfl⟩ := List.mem_map.mp he
        exact concentrate_not_mineral _ (rationConcentrateAllocs_cat _ _ _ _ ha)
      rw [h2, h3]
      rfl
  · intro hz
    rw [calculate_ration_internal, if_neg hnotempty, if_pos]
    rcases hz with hz | hz <;> rw [hz] <;> simp

/-- Witness for C8: the success branch on a single roughage feed (no
concentrates, no minerals selected), and the ZeroDivisionError branch
on a roughage feed with dm_percentage = 0. -/
theorem ration_nonempty_result_witness :
    (∃ r, calculate_ration_internal none zeroRationRequest [sampleRoughageFeed] =
        Except.ok r ∧
      (roughageBucket [sampleRoughageFeed] = [] →
        r.suggested_ration.filter (fun e => isRoughageCat e.category) = []) ∧
      (concentrateBucket [sampleRoughageFeed] = [] →
        r.suggested_ration.filter (fun e => isConcentrateCat e.category) = []) ∧
      (mineralBucket [sampleRoughageFeed] = [] →
        r.suggested_ration.filter (fun e => isMineralCat e.category) = [])) ∧
    calculate_ration_internal none zeroRationRequest [zeroDMRoughageFeed] =
      Except.error "ZeroDivisionError: float division by zero" :=
  ⟨(ration_nonempty_result none zeroRationRequest [sampleRoughageFeed]
      (by simp)).1 (by decide),
   (ration_nonempty_result none zeroRationRequest [zeroDMRoughageFeed]
      (by simp)).2 (Or.inl (by decide))⟩

/-- Rounding the fixed mineral quantities (0.05 / 0.03) to three
decimals returns them unchanged. -/
theorem pyRound3_mineralQuantity (f : FeedItem) :
    pyRound 3 (mineralQuantity f) = mineralQuantity f := by
  unfold mineralQuantity
  split <;> norm_num [pyRound, roundHalfEven, ratFloor_eq_intFloor]

/-- The provided-DM total unfolded. -/
theorem rationResultOf_total_dm (ruleOpt : Option SpeciesNutritionRule)
    (req : RationCalculationRequest) (feeds : List FeedItem) :
    (rationResultOf ruleOpt req feeds).total_dm_provided_kg =
      pyRound 2 (sumAlloc (fun a => a.dm)
        (rationRoughageAllocs (ruleOpt.getD defaultNutritionRule) req feeds ++
          rationConcentrateAllocs (ruleOpt.getD defaultNutritionRule) req feeds) 0) := rfl

/-- The provided-CP total unfolded. -/
theorem rationResultOf_total_cp (ruleOpt : Option SpeciesNutritionRule)
    (req : RationCalculationRequest) (feeds : List FeedItem) :
    (rationResultOf ruleOpt req feeds).total_cp_provided_g =
      pyRound 1 (sumAlloc (fun a => a.cp)
        (rationRoughageAllocs (ruleOpt.getD defaultNutritionRule) req feeds ++
          rationConcentrateAllocs (ruleOpt.getD defaultNutritionRule) req feeds) 0) := rfl

/-- The provided-TDN total unfolded. -/
theorem rationResultOf_total_tdn (ruleOpt : Option SpeciesNutritionRule)
    (req : RationCalculationRequest) (feeds : List FeedItem) :
    (rationResultOf ruleOpt req feeds).total_tdn_provided_kg =
      pyRound 2 (sumAlloc (fun a => a.tdn)
        (rationRoughageAllocs (ruleOpt.getD defaultNutritionRule) req feeds ++
          rationConcentrateAllocs (ruleOpt.getD defaultNutritionRule) req feeds) 0) := rfl

/-- The daily feed cost unfolded: the only total the mineral loop
feeds into. -/
theorem rationResultOf_cost (ruleOpt : Option SpeciesNutritionRule)
    (req : RationCalculationRequest) (feeds : List FeedItem) :
    (rationResultOf ruleOpt req feeds).daily_feed_cost =
      pyRound 2 (mineralCostSum req (mineralBucket feeds)
        (sumAlloc (fun a => a.cost)
          (rationRoughageAllocs (ruleOpt.getD defaultNutritionRule) req feeds ++
            rationConcentrateAllocs (ruleOpt.getD defaultNutritionRule) req feeds) 0)) := rfl

/-- Claim C10: in every returned ration result, a selected mineral
feed contributes only its fixed quantity (0.05 kg for a "salt" name,
else 0.03 kg) and its cost: its entry reports cp_g = 0 and tdn_kg = 0
and dm_kg equal to the quantity; the provided DM/CP/TDN totals sum the
roughage and concentrate allocations only, while daily_feed_cost adds
the mineral cost term; and whenever some non-mineral feed is selected,
the DM/CP/TDN totals equal those of the mineral-free run. -/
theorem ration_mineral_fixed_contribution (ruleOpt : Option SpeciesNutritionRule)
    (req : RationCalculationRequest) (feeds : List FeedItem)
    (r : RationResult)
    (h : calculate_ration_internal ruleOpt req feeds = Except.ok r) :
    (∀ e ∈ r.suggested_ration, isMineralCat e.category = true →
      e.cp_g = 0 ∧ e.tdn_kg = 0 ∧ e.dm_kg = e.quantity_kg ∧
      e.quantity_kg = (if containsSub (pyLower e.feed_name).toList
        "salt".toList then 5 / 100 else 3 / 100)) ∧
    r.total_dm_provided_kg = pyRound 2 (sumAlloc (fun a => a.dm)
      (rationRoughageAllocs (ruleOpt.getD defaultNutritionRule) req feeds ++
        rationConcentrateAllocs (ruleOpt.getD defaultNutritionRule) req feeds) 0) ∧
    r.total_cp_provided_g = pyRound 1 (sumAlloc (fun a => a.cp)
      (rationRoughageAllocs (ruleOpt.getD defaultNutritionRule) req feeds ++
        rationConcentrateAllocs (ruleOpt.getD defaultNutritionRule) req feeds) 0) ∧
    r.total_tdn_provided_kg = pyRound 2 (sumAlloc (fun a => a.tdn)
      (rationRoughageAllocs (ruleOpt.getD defaultNutritionRule) req feeds ++
        rationConcentrateAllocs (ruleOpt.getD defaultNutritionRule) req feeds) 0) ∧
    r.daily_feed_cost = pyRound 2 (mineralCostSum req (mineralBucket feeds)
      (sumAlloc (fun a => a.cost)
        (rationRoughageAllocs (ruleOpt.getD defaultNutritionRule) req feeds ++
          rationConcentrateAllocs (ruleOpt.getD defaultNutritionRule) req feeds) 0)) ∧
    (feeds.filter (fun f => !isMineralCat f.category) ≠ [] →
      ∃ r', calculate_ration_internal ruleOpt req
          (feeds.filter (fun f => !isMineralCat f.category)) = Except.ok r' ∧
        r.total_dm_provided_kg = r'.total_dm_provided_kg ∧
        r.total_cp_provided_g = r'.total_cp_provided_g ∧
        r.total_tdn_provided_kg = r'.total_tdn_provided_kg) := by
  rw [calculate_ration_internal] at h
  by_cases h1 : feeds.isEmpty = true
  · rw [if_pos h1] at h
    exact absurd h (by simp)
  rw [if_neg h1] at h
  by_cases h2 : (zeroDMRoughage feeds ||
      zeroDMConcentrate (ruleOpt.getD defaultNutritionRule) req feeds) = true
  · rw [if_pos h2] at h
    exact absurd h (by simp)
  rw [if_neg h2] at h
  have hr : rationResultOf ruleOpt req feeds = r := by
    injection h
  subst hr
  refine ⟨?_, rationResultOf_total_dm ruleOpt req feeds,
    rationResultOf_total_cp ruleOpt req feeds,
    rationResultOf_total_tdn ruleOpt req feeds,
    rationResultOf_cost ruleOpt req feeds, ?_⟩
  · intro e he hm
    rw [rationResultOf_suggested] at he
    rcases List.mem_append.mp he with hrc | hmin
    · rcases List.mem_append.mp hrc with hrr | hc
      · obtain ⟨a, ha, rfl⟩ := List.mem_map.mp hrr
        have hfalse : isMineralCat (entryOfAlloc a).category = false :=
          roughage_not_mineral _ (rationRoughageAllocs_cat _ _ _ _ ha)
        rw [hfalse] at hm
        cases hm
      · obtain ⟨a, ha, rfl⟩ := List.mem_map.mp hc
        have hfalse : isMineralCat (entryOfAlloc a).category = false :=
          concentrate_not_mineral _ (rationConcentrateAllocs_cat _ _ _ _ ha)
        rw [hfalse] at hm
        cases hm
    · obtain ⟨f, _, rfl⟩ := List.mem_map.mp hmin
      refine ⟨rfl, rfl, rfl, ?_⟩
      show pyRound 3 (mineralQuantity f) = _
      rw [pyRound3_mineralQuantity]
      rfl
  · intro hne'
    refine ⟨rationResultOf ruleOpt req
      (feeds.filter (fun f => !isMineralCat f.category)), ?_, ?_, ?_, ?_⟩
    · rw [calculate_ration_internal, if_neg, if_neg]
      · rw [zeroDMRoughage_filter_nonMineral, zeroDMConcentrate_filter_nonMineral]
        exact h2
      · rw [List.isEmpty_iff]
        exact hne'
    · rw [rationResultOf_total_dm, rationResultOf_total_dm,
        rationRoughageAllocs_filter_nonMineral, rationConcentrateAllocs_filter_nonMineral]
    · rw [rationResultOf_total_cp, rationResultOf_total_cp,
        rationRoughageAllocs_filter_nonMineral, rationConcentrateAllocs_filter_nonMineral]
    · rw [rationResultOf_total_tdn, rationResultOf_total_tdn,
        rationRoughageAllocs_filter_nonMineral, rationConcentrateAllocs_filter_nonMineral]

/-- Witness for C10: one roughage feed plus one salt mineral feed. -/
theorem ration_mineral_fixed_contribution_witness :
    (∀ e ∈ (rationResultOf none zeroRationRequest
        [sampleRoughageFeed, sampleSaltFeed]).suggested_ration,
      isMineralCat e.category = true →
      e.cp_g = 0 ∧ e.tdn_kg = 0 ∧ e.dm_kg = e.quantity_kg ∧
      e.quantity_kg = (if containsSub (pyLower e.feed_name).toList
        "salt".toList then 5 / 100 else 3 / 100)) ∧
    (rationResultOf none zeroRationRequest
        [sampleRoughageFeed, sampleSaltFeed]).total_dm_provided_kg =
      pyRound 2 (sumAlloc (fun a => a.dm)
        (rationRoughageAllocs (Option.getD none defaultNutritionRule)
            zeroRationRequest [sampleRoughageFeed, sampleSaltFeed] ++
          rationConcentrateAllocs (Option.getD none defaultNutritionRule)
            zeroRationRequest [sampleRoughageFeed, sampleSaltFeed]) 0) ∧
    (rationResultOf none zeroRationRequest
        [sampleRoughageFeed, sampleSaltFeed]).total_cp_provided_g =
      pyRound 1 (sumAlloc (fun a => a.cp)
        (rationRoughageAllocs (Option.getD none defaultNutritionRule)
            zeroRationRequest [sampleRoughageFeed, sampleSaltFeed] ++
          rationConcentrateAllocs (Option.getD none defaultNutritionRule)
            zeroRationRequest [sampleRoughageFeed, sampleSaltFeed]) 0) ∧
    (rationResultOf none zeroRationRequest
        [sampleRoughageFeed, sampleSaltFeed]).total_tdn_provided_kg =
      pyRound 2 (sumAlloc (fun a => a.tdn)
        (rationRoughageAllocs (Option.getD none defaultNutritionRule)
            zeroRationRequest [sampleRoughageFeed, sampleSaltFeed] ++
          rationConcentrateAllocs (Option.getD none defaultNutritionRule)
            zeroRationRequest [sampleRoughageFeed, sampleSaltFeed]) 0) ∧
    (rationResultOf none zeroRationRequest
        [sampleRoughageFeed, sampleSaltFeed]).daily_feed_cost =
      pyRound 2 (mineralCostSum zeroRationRequest
        (mineralBucket [sampleRoughageFeed, sampleSaltFeed])
        (sumAlloc (fun a => a.cost)
          (rationRoughageAllocs (Option.getD none defaultNutritionRule)
              zeroRationRequest [sampleRoughageFeed, sampleSaltFeed] ++
            rationConcentrateAllocs (Option.getD none defaultNutritionRule)
              zeroRationRequest [sampleRoughageFeed, sampleSaltFeed]) 0)) ∧
    ([sampleRoughageFeed, sampleSaltFeed].filter
        (fun f => !isMineralCat f.category) ≠ [] →
      ∃ r', calculate_ration_internal none zeroRationRequest
          ([sampleRoughageFeed, sampleSaltFeed].filter
            (fun f => !isMineralCat f.category)) = Except.ok r' ∧
        (rationResultOf none zeroRationRequest
          [sampleRoughageFeed, sampleSaltFeed]).total_dm_provided_kg =
          r'.total_dm_provided_kg ∧
        (rationResultOf none zeroRationRequest
          [sampleRoughageFeed, sampleSaltFeed]).total_cp_provided_g =
          r'.total_cp_provided_g ∧
        (rationResultOf none zeroRationRequest
          [sampleRoughageFeed, sampleSaltFeed]).total_tdn_provided_kg =
          r'.total_tdn_provided_kg) :=
  ration_mineral_fixed_contribution none zeroRationRequest
    [sampleRoughageFeed, sampleSaltFeed]
    (rationResultOf none zeroRationRequest [sampleRoughageFeed, sampleSaltFeed])
    rfl
